import Mathlib

/-!
Shallow embedding of the supervised-worker IPC layer of the XORNG VS Code
extension: the message protocol (src/ipc/types.ts) and the orchestrator
(src/core/LocalOrchestrator.ts, the class defined at lines 615-1313).

Modelling conventions:
- JS objects received over the IPC channel are modelled by `IPCValue`:
  either a non-object value, or a record of optional fields (`RawMsg`);
  an `Option` field is `none` exactly when the key is absent.
- The orchestrator's mutable fields (`coreProcess`, `isReady`,
  `pendingRequests`, `streamHandlers`) form `OrchState`; JS `Map`s become
  association lists with unique keys, `Map.delete` becomes a key filter.
- Settling a promise, cancelling a timer, firing an emitter, logging and
  `process.send` are observable effects, recorded as an `Event` list
  returned next to the new state by each handler.
- A pending entry created by `sendStreamingRequest` wraps its
  resolve/reject callbacks so that they first delete the stream handler;
  this is modelled by the `streaming` flag on `PendingEntry`, which makes
  settlement delete the sink.
-/

namespace XORNG

/-- Structured error carried by a Response (ipc/types.ts, IPCResponse.error). -/
structure IPCError where
  code : String
  message : String
deriving DecidableEq, Repr

/-- Message payloads that the orchestrator itself inspects or constructs.
Opaque payloads of higher-level calls are `tag`; `withStream p` models the
spread `{ ...payload, stream: true }` in sendStreamingRequest. -/
inductive Payload where
  | chunk (content : String) (done : Bool)
  | content (content : String)
  | shutdown (reason : String)
  | withStream (p : Payload)
  | tag (t : String)
deriving DecidableEq, Repr

/-- A JS object holding any subset of the envelope fields used by the IPC
layer. A field is `none` when the corresponding key is absent. -/
structure RawMsg where
  type? : Option String
  id? : Option String
  timestamp? : Option Nat
  payload? : Option Payload
  requestId? : Option String
  success? : Option Bool
  error? : Option IPCError
deriving DecidableEq, Repr

/-- An arbitrary value arriving on the IPC channel: null / primitives are
`nonObject`, anything object-shaped is `obj`. -/
inductive IPCValue where
  | nonObject
  | obj (m : RawMsg)
deriving DecidableEq, Repr

/-- isIPCRequest (ipc/types.ts lines 286-295): the value is a non-null
object and the keys type, id, timestamp, payload are all present. -/
def isIPCRequestB : IPCValue → Bool
  | .nonObject => false
  | .obj m => m.type?.isSome && m.id?.isSome && m.timestamp?.isSome && m.payload?.isSome

/-- isIPCResponse (ipc/types.ts lines 297-303). -/
def isIPCResponseB : IPCValue → Bool
  | v => isIPCRequestB v &&
    (match v with
     | .nonObject => false
     | .obj m => m.requestId?.isSome && m.success?.isSome)

/-- isLLMRequest (ipc/types.ts lines 305-307). -/
def isLLMRequestB (v : IPCValue) : Bool :=
  isIPCRequestB v &&
    (match v with
     | .nonObject => false
     | .obj m => m.type? == some "llm:request")

/-- isLLMStreamRequest (ipc/types.ts lines 309-311). -/
def isLLMStreamRequestB (v : IPCValue) : Bool :=
  isIPCRequestB v &&
    (match v with
     | .nonObject => false
     | .obj m => m.type? == some "llm:stream")

/-! ### Message-id rendering

The factory renders ids as `msg_${++messageCounter}_${Date.now()}` and
`res_${++messageCounter}_${Date.now()}`; the streaming LLM proxy builds
chunk ids as `chunk_${Date.now()}`. Decimal rendering of a natural number
is embedded via `Nat.digits`, so that injectivity can be proved. -/

/-- Decimal character list of a natural number, most significant first;
the embedding of the JS template interpolation of a number. -/
def natChars (n : Nat) : List Char :=
  match n with
  | 0 => ['0']
  | Nat.succ m => ((Nat.digits 10 (Nat.succ m)).map Nat.digitChar).reverse

/-- Decimal rendering of a natural number as a string. -/
def natStr (n : Nat) : String :=
  String.mk (natChars n)

/-- Value of a big-endian decimal character list; left inverse of `natChars`. -/
def charsVal (l : List Char) : Nat :=
  l.foldl (fun a c => 10 * a + (c.toNat - 48)) 0

/-- Shared monotonic counter of the message factory
(ipc/types.ts line 317, `let messageCounter = 0`). -/
structure FactoryState where
  counter : Nat
deriving DecidableEq, Repr

/-- The id string `<pre><counter>_<now>` produced by the factory. -/
def mkMsgId (pre : String) (c t : Nat) : String :=
  pre ++ natStr c ++ "_" ++ natStr t

/-- createIPCRequest (ipc/types.ts lines 319-329): increments the shared
counter and stamps id `msg_<counter>_<now>`. -/
def createIPCRequest (fs : FactoryState) (now : Nat) (ty : String) (p : Payload) :
    FactoryState × RawMsg :=
  (⟨fs.counter + 1⟩,
   { type? := some ty
     id? := some (mkMsgId "msg_" (fs.counter + 1) now)
     timestamp? := some now
     payload? := some p
     requestId? := none
     success? := none
     error? := none })

/-- createIPCResponse (ipc/types.ts lines 331-347): increments the shared
counter and stamps id `res_<counter>_<now>`. -/
def createIPCResponse (fs : FactoryState) (now : Nat) (ty requestId : String)
    (success : Bool) (p : Option Payload) (err : Option IPCError) :
    FactoryState × RawMsg :=
  (⟨fs.counter + 1⟩,
   { type? := some ty
     id? := some (mkMsgId "res_" (fs.counter + 1) now)
     timestamp? := some now
     payload? := p
     requestId? := some requestId
     success? := some success
     error? := err })

/-- The llm:chunk message built inline by handleLLMStreamRequest
(LocalOrchestrator.ts lines 1248-1254): its id is `chunk_${Date.now()}`,
with no counter component. -/
def mkLLMChunkMsg (now : Nat) (requestId content : String) (done : Bool) : RawMsg :=
  { type? := some "llm:chunk"
    id? := some ("chunk_" ++ natStr now)
    timestamp? := some now
    payload? := some (.chunk content done)
    requestId? := some requestId
    success? := none
    error? := none }

/-! ### Injectivity of the decimal id components -/

theorem digitChar_ne_sep : ∀ d : Nat, d < 10 → Nat.digitChar d ≠ '_' := by decide

theorem digitChar_val : ∀ d : Nat, d < 10 → (Nat.digitChar d).toNat - 48 = d := by decide

theorem charsVal_append_digit (l : List Char) (c : Char) :
    charsVal (l ++ [c]) = 10 * charsVal l + (c.toNat - 48) := by
  simp [charsVal, List.foldl_append]

theorem charsVal_rev_map (l : List Nat) (h : ∀ d ∈ l, d < 10) :
    charsVal ((l.map Nat.digitChar).reverse) = Nat.ofDigits 10 l := by
  induction l with
  | nil => simp [charsVal, Nat.ofDigits]
  | cons d t ih =>
    have hd : d < 10 := h d (by simp)
    have ht : ∀ x ∈ t, x < 10 := fun x hx => h x (by simp [hx])
    calc charsVal (((d :: t).map Nat.digitChar).reverse)
        = charsVal ((t.map Nat.digitChar).reverse ++ [Nat.digitChar d]) := by simp
      _ = 10 * charsVal ((t.map Nat.digitChar).reverse) + ((Nat.digitChar d).toNat - 48) :=
          charsVal_append_digit _ _
      _ = 10 * Nat.ofDigits 10 t + d := by rw [ih ht, digitChar_val d hd]
      _ = Nat.ofDigits 10 (d :: t) := by rw [Nat.ofDigits_cons]; ring

theorem charsVal_natChars (n : Nat) : charsVal (natChars n) = n := by
  match n with
  | 0 => decide
  | Nat.succ m =>
    have h : ∀ d ∈ Nat.digits 10 (Nat.succ m), d < 10 := fun d hd =>
      Nat.digits_lt_base (by norm_num) hd
    simpa [natChars] using
      (charsVal_rev_map (Nat.digits 10 (Nat.succ m)) h).trans (Nat.ofDigits_digits 10 (Nat.succ m))

theorem natChars_inj {m n : Nat} (h : natChars m = natChars n) : m = n := by
  have := congrArg charsVal h
  rwa [charsVal_natChars, charsVal_natChars] at this

theorem natChars_no_sep (n : Nat) : '_' ∉ natChars n := by
  match n with
  | 0 => decide
  | Nat.succ m =>
    intro hmem
    simp only [natChars, List.mem_reverse, List.mem_map] at hmem
    obtain ⟨d, hd, hdc⟩ := hmem
    exact digitChar_ne_sep d (Nat.digits_lt_base (by norm_num) hd) hdc

theorem sep_split :
    ∀ (as cs bs ds : List Char), '_' ∉ as → '_' ∉ cs →
      as ++ '_' :: bs = cs ++ '_' :: ds → as = cs ∧ bs = ds := by
  intro as
  induction as with
  | nil =>
    intro cs bs ds _ hc h
    cases cs with
    | nil => simpa using h
    | cons c cs2 =>
      simp only [List.nil_append, List.cons_append, List.cons.injEq] at h
      exact absurd (h.1.symm ▸ List.mem_cons_self c cs2) (by simp_all)
  | cons a as2 ih =>
    intro cs bs ds ha hc h
    cases cs with
    | nil =>
      simp only [List.cons_append, List.nil_append, List.cons.injEq] at h
      exact absurd (h.1 ▸ List.mem_cons_self a as2) (by simp_all)
    | cons c cs2 =>
      simp only [List.cons_append, List.cons.injEq] at h
      have ha2 : '_' ∉ as2 := fun hm => ha (List.mem_cons_of_mem a hm)
      have hc2 : '_' ∉ cs2 := fun hm => hc (List.mem_cons_of_mem c hm)
      obtain ⟨h1, h2⟩ := ih cs2 bs ds ha2 hc2 h.2
      exact ⟨by rw [h.1, h1], h2⟩

theorem mkMsgId_data (pre : String) (c t : Nat) :
    (mkMsgId pre c t).data = pre.data ++ (natChars c ++ '_' :: natChars t) := by
  simp [mkMsgId, natStr, String.data_append]

theorem mkMsgId_msg_inj {c1 t1 c2 t2 : Nat}
    (h : mkMsgId "msg_" c1 t1 = mkMsgId "msg_" c2 t2) : c1 = c2 ∧ t1 = t2 := by
  have hd := congrArg String.data h
  rw [mkMsgId_data, mkMsgId_data] at hd
  have htail : natChars c1 ++ '_' :: natChars t1 = natChars c2 ++ '_' :: natChars t2 :=
    List.append_cancel_left hd
  obtain ⟨h1, h2⟩ := sep_split _ _ _ _ (natChars_no_sep c1) (natChars_no_sep c2) htail
  exact ⟨natChars_inj h1, natChars_inj h2⟩

theorem mkMsgId_res_inj {c1 t1 c2 t2 : Nat}
    (h : mkMsgId "res_" c1 t1 = mkMsgId "res_" c2 t2) : c1 = c2 ∧ t1 = t2 := by
  have hd := congrArg String.data h
  rw [mkMsgId_data, mkMsgId_data] at hd
  have htail : natChars c1 ++ '_' :: natChars t1 = natChars c2 ++ '_' :: natChars t2 :=
    List.append_cancel_left hd
  obtain ⟨h1, h2⟩ := sep_split _ _ _ _ (natChars_no_sep c1) (natChars_no_sep c2) htail
  exact ⟨natChars_inj h1, natChars_inj h2⟩

theorem mkMsgId_msg_ne_res (c1 t1 c2 t2 : Nat) :
    mkMsgId "msg_" c1 t1 ≠ mkMsgId "res_" c2 t2 := by
  intro h
  have hd := congrArg String.data h
  rw [mkMsgId_data, mkMsgId_data] at hd
  have : 'm' = 'r' := by
    have h2 : ('m' :: "sg_".data) ++ (natChars c1 ++ '_' :: natChars t1)
        = ('r' :: "es_".data) ++ (natChars c2 ++ '_' :: natChars t2) := hd
    simpa using congrArg (fun l => l.headD ' ') h2
  exact absurd this (by decide)

theorem mkMsgId_ne_of_counter_ne {p1 p2 : String} {c1 t1 c2 t2 : Nat}
    (h1 : p1 = "msg_" ∨ p1 = "res_") (h2 : p2 = "msg_" ∨ p2 = "res_")
    (hc : c1 ≠ c2) : mkMsgId p1 c1 t1 ≠ mkMsgId p2 c2 t2 := by
  rcases h1 with rfl | rfl <;> rcases h2 with rfl | rfl
  · exact fun h => hc (mkMsgId_msg_inj h).1
  · exact mkMsgId_msg_ne_res c1 t1 c2 t2
  · exact fun h => (mkMsgId_msg_ne_res c2 t2 c1 t1) h.symm
  · exact fun h => hc (mkMsgId_res_inj h).1

/-! ### Orchestrator state (LocalOrchestrator.ts lines 633-663) -/

/-- One entry of the pendingRequests map. The resolve/reject callbacks are
modelled by the `streaming` flag: entries made by sendStreamingRequest
(lines 859-869) wrap resolve/reject so that settling first deletes the
stream handler; `timer` is the handle of the entry's timeout timer. -/
structure PendingEntry where
  streaming : Bool
  timer : Nat
deriving DecidableEq, Repr

/-- The orchestrator's mutable fields: coreProcess (an opaque process
handle id or null), the isReady flag, the pendingRequests map and the
streamHandlers map (keyed by request id; the callback value is left
abstract, so the map is the list of its keys). -/
structure OrchState where
  coreProcess : Option Nat
  isReady : Bool
  pendingRequests : List (String × PendingEntry)
  streamHandlers : List String
deriving DecidableEq, Repr

/-- Map.delete: remove a key from an association list. -/
def mapDelete (m : List (String × PendingEntry)) (k : String) : List (String × PendingEntry) :=
  m.filter (fun p => p.1 ≠ k)

/-- Map.set: replace the value at an existing key, else append. -/
def mapSet (m : List (String × PendingEntry)) (k : String) (v : PendingEntry) :
    List (String × PendingEntry) :=
  if (m.lookup k).isSome then m.map (fun p => if p.1 = k then (k, v) else p) else m ++ [(k, v)]

/-- Map.delete on the streamHandlers key set. -/
def setDelete (l : List String) (k : String) : List String :=
  l.filter (fun x => x ≠ k)

/-- Map.set on the streamHandlers key set. -/
def setAdd (l : List String) (k : String) : List String :=
  if k ∈ l then l else l ++ [k]

/-- isRunning (lines 797-799): a process handle exists and isReady holds. -/
def isRunning (s : OrchState) : Bool :=
  s.coreProcess.isSome && s.isReady

/-- Observable effects of the handlers: promise settlements, timer
cancellations, emitter firings, stream-handler invocations, log lines and
outbound sends. -/
inductive Event where
  | logged (s : String)
  | firedReady (m : RawMsg)
  | firedExit (code : Option Int)
  | resolved (requestId : String) (response : RawMsg)
  | rejected (requestId : String) (error : String)
  | timerCancelled (timer : Nat)
  | chunkDelivered (requestId : String) (m : RawMsg)
  | routedLLM (m : RawMsg)
  | routedLLMStream (m : RawMsg)
  | sent (m : RawMsg)
deriving DecidableEq, Repr

/-- Whether an event settles (resolves or rejects) the call with this id. -/
def isSettleFor (rid : String) : Event → Bool
  | .resolved r _ => r == rid
  | .rejected r _ => r == rid
  | _ => false

/-- Number of settlement events for a given request id. -/
def settleCount (evs : List Event) (rid : String) : Nat :=
  (evs.filter (isSettleFor rid)).length

/-- The reject message for a non-success Response (line 1052):
`response.error?.message || 'Request failed'`, JS falsy on the empty string. -/
def errMessageOf (m : RawMsg) : String :=
  match m.error? with
  | some e => if e.message = "" then "Request failed" else e.message
  | none => "Request failed"

/-- The requestId field of an inbound value, when present. -/
def requestIdOf : IPCValue → Option String
  | .nonObject => none
  | .obj m => m.requestId?

/-- handleMessage (LocalOrchestrator.ts lines 1004-1056): guard the
envelope, then dispatch on type: core:ready sets isReady and fires the
ready emitter; llm:request / llm:stream are routed to the proxy handlers;
process:chunk invokes the registered stream handler (without touching the
registry); any other message carrying a requestId settles the matching
pending entry, cancelling its timer and removing the entry first, and is
dropped silently when no entry matches. -/
def handleMessage (s : OrchState) (v : IPCValue) : OrchState × List Event :=
  match v with
  | .nonObject => (s, [.logged "Invalid message received"])
  | .obj m =>
    if isIPCRequestB (.obj m) then
      if m.type? = some "core:ready" then
        ({ s with isReady := true }, [.logged "Core is ready", .firedReady m])
      else if m.type? = some "llm:request" then
        (s, [.routedLLM m])
      else if m.type? = some "llm:stream" then
        (s, [.routedLLMStream m])
      else if m.type? = some "process:chunk" then
        match m.requestId? with
        | some rid => if rid ∈ s.streamHandlers then (s, [.chunkDelivered rid m]) else (s, [])
        | none => (s, [])
      else
        match m.requestId? with
        | some rid =>
          match s.pendingRequests.lookup rid with
          | some e =>
            let s1 : OrchState :=
              { s with
                pendingRequests := mapDelete s.pendingRequests rid
                streamHandlers :=
                  if e.streaming then setDelete s.streamHandlers rid else s.streamHandlers }
            if m.success? = some true then
              (s1, [.timerCancelled e.timer, .resolved rid m])
            else
              (s1, [.timerCancelled e.timer, .rejected rid (errMessageOf m)])
          | none => (s, [])
        | none => (s, [])
    else
      (s, [.logged "Invalid message received"])

/-- Sequential event dispatch: process a list of inbound values in order. -/
def runMessages (s : OrchState) : List IPCValue → OrchState × List Event
  | [] => (s, [])
  | v :: rest =>
    let r1 := handleMessage s v
    let r2 := runMessages r1.1 rest
    (r2.1, r1.2 ++ r2.2)

/-- The rejection loop of the exit handler (lines 724-727): for each
pending entry, clear its timer and call reject; rejecting a streaming
entry also deletes its stream handler (the wrapper of lines 864-867). -/
def rejectAllPending (pending : List (String × PendingEntry)) (sinks : List String)
    (err : String) : List String × List Event :=
  match pending with
  | [] => (sinks, [])
  | (rid, e) :: rest =>
    let sinks1 := if e.streaming then setDelete sinks rid else sinks
    let r := rejectAllPending rest sinks1 err
    (r.1, [.timerCancelled e.timer, .rejected rid err] ++ r.2)

/-- The exit handler registered in start() (lines 717-729): reset
isReady and the process handle, fire the exit emitter, reject every
pending call with a process-exited error (cancelling its timer) and clear
the registry. -/
def onExit (s : OrchState) (code : Option Int) : OrchState × List Event :=
  let r := rejectAllPending s.pendingRequests s.streamHandlers "Core process exited"
  ({ coreProcess := none, isReady := false, pendingRequests := [], streamHandlers := r.1 },
   [.logged "Core exited", .firedExit code] ++ r.2)

/-- The timeout callback of sendRequest (lines 816-819): delete the
entry, then reject with the timeout error. -/
def sendRequestTimeoutCb (s : OrchState) (rid ty : String) (tms : Nat) :
    OrchState × List Event :=
  ({ s with pendingRequests := mapDelete s.pendingRequests rid },
   [.rejected rid ("Request " ++ ty ++ " timed out after " ++ natStr tms ++ "ms")])

/-- The timeout callback of sendStreamingRequest (lines 853-857): delete
the pending entry and the stream handler, then reject. -/
def sendStreamingTimeoutCb (s : OrchState) (rid : String) (tms : Nat) :
    OrchState × List Event :=
  ({ s with
     pendingRequests := mapDelete s.pendingRequests rid
     streamHandlers := setDelete s.streamHandlers rid },
   [.rejected rid ("Streaming request timed out after " ++ natStr tms ++ "ms")])

/-- sendRequest (lines 804-829) up to its first suspension: throw when
not running (state untouched, nothing sent); otherwise create the
request, register a non-streaming pending entry with its timer, and send.
The thrown error is the first component. -/
def sendRequestImpl (s : OrchState) (fs : FactoryState) (now : Nat) (ty : String)
    (p : Payload) (timerId : Nat) :
    Option String × OrchState × FactoryState × List Event :=
  if isRunning s then
    let r := createIPCRequest fs now ty p
    let rid := r.2.id?.getD ""
    (none,
     { s with pendingRequests := mapSet s.pendingRequests rid ⟨false, timerId⟩ },
     r.1, [.sent r.2])
  else
    (some "Core is not running", s, fs, [])

/-- sendStreamingRequest (lines 834-873) up to its first suspension:
throw when not running (state untouched, nothing sent); otherwise create
the request with the stream flag spread into the payload, register the
stream handler and a streaming pending entry with its timer, and send. -/
def sendStreamingRequestImpl (s : OrchState) (fs : FactoryState) (now : Nat) (ty : String)
    (p : Payload) (timerId : Nat) :
    Option String × OrchState × FactoryState × List Event :=
  if isRunning s then
    let r := createIPCRequest fs now ty (Payload.withStream p)
    let rid := r.2.id?.getD ""
    (none,
     { s with
       streamHandlers := setAdd s.streamHandlers rid
       pendingRequests := mapSet s.pendingRequests rid ⟨true, timerId⟩ },
     r.1, [.sent r.2])
  else
    (some "Core is not running", s, fs, [])

/-- The guard of start() (lines 668-672): when a process handle exists,
log and return true without spawning; otherwise proceed to spawn. -/
inductive StartStep where
  | earlyReturn (result : Bool)
  | spawn
deriving DecidableEq, Repr

/-- startGuard models lines 668-672 of start(): the early return is taken
exactly when coreProcess is non-null; the isReady flag is not consulted. -/
def startGuard (s : OrchState) : StartStep :=
  if s.coreProcess.isSome then .earlyReturn true else .spawn

/-! ### stop() (LocalOrchestrator.ts lines 757-784)

stop() installs, at call time 0: a force-kill timer at 5000 that sends
SIGKILL and then calls resolve immediately; a once-listener on the exit
event that clears that timer and calls resolve; a best-effort shutdown
request sent at once; and a timer at 1000 that sends SIGTERM (this timer
is never cleared). The model evaluates that event schedule against the
time at which the exit event fires (`exitAt`, `none` when it never fires
before the deadline): an exit strictly before 5000 wins the race and
resolves on the exit event; otherwise the force-kill timer fires first,
SIGKILL is sent and resolve is called at 5000 without the exit event
having been observed. -/

/-- The observable outcome of one stop() call. -/
structure StopTrace where
  resolveAt : Nat
  resolvedOnExit : Bool
  sigkillAt : Option Nat
  sigtermAt : Option Nat
  shutdownSentAt : Nat
deriving DecidableEq, Repr

/-- Outcome of the event schedule installed by stop() when a process
exists, as a function of when the process-exit event fires. -/
def stopRun (exitAt : Option Nat) : StopTrace :=
  match exitAt with
  | some t =>
    if t < 5000 then
      { resolveAt := t, resolvedOnExit := true, sigkillAt := none,
        sigtermAt := some 1000, shutdownSentAt := 0 }
    else
      { resolveAt := 5000, resolvedOnExit := false, sigkillAt := some 5000,
        sigtermAt := some 1000, shutdownSentAt := 0 }
  | none =>
    { resolveAt := 5000, resolvedOnExit := false, sigkillAt := some 5000,
      sigtermAt := some 1000, shutdownSentAt := 0 }

/-- stop() with its entry guard (lines 758-760): returns immediately with
no trace when no process exists. -/
def stopCall (hasProcess : Bool) (exitAt : Option Nat) : Option StopTrace :=
  if hasProcess then some (stopRun exitAt) else none

/-! ### The LLM capability proxy (handleLLMRequest, lines 1061-1173)

A backend selector is a vendor/family filter passed to
vscode.lm.selectChatModels; the environment `avail` gives the list of
models each selector matches. handleLLMRequest tries, in order: the
configured preferred family (when set), then each of five hard-coded
copilot families until one matches, then any copilot model, then any
model at all; the first selector with a non-empty result wins and its
first model is invoked. -/

/-- A vendor/family model selector (vscode.LanguageModelChatSelector). -/
structure Selector where
  vendor : Option String
  family : Option String
deriving DecidableEq, Repr

/-- A language-model backend instance (vendor/family/id triple). -/
structure ModelInfo where
  vendor : String
  family : String
  mid : String
deriving DecidableEq, Repr

/-- The hard-coded fallback families (line 1083). -/
def familiesToTry : List String :=
  ["gpt-4o", "gpt-4", "gpt-4-turbo", "gpt-3.5-turbo", "claude-3.5-sonnet"]

/-- The ordered list of selectors tried by handleLLMRequest
(lines 1073-1105): preferred family first when configured, then the five
fallback families, then copilot without family, then the unrestricted
selector. -/
def llmSelectorChain (preferredFamily : Option String) : List Selector :=
  (match preferredFamily with
   | some f => [{ vendor := some "copilot", family := some f }]
   | none => []) ++
  familiesToTry.map (fun f => { vendor := some "copilot", family := some f }) ++
  [{ vendor := some "copilot", family := none }, { vendor := none, family := none }]

/-- First selector in the chain matching at least one model, with its
match list. -/
def selectFirst (avail : Selector → List ModelInfo) :
    List Selector → Option (Selector × List ModelInfo)
  | [] => none
  | sel :: rest =>
    if avail sel = [] then selectFirst avail rest else some (sel, avail sel)

/-- Position of the selector actually used, for observing the fallback. -/
def selectIdx (avail : Selector → List ModelInfo) : List Selector → Option Nat
  | [] => none
  | sel :: rest =>
    if avail sel = [] then (selectIdx avail rest).map (· + 1) else some 0

/-- Index of the selector used by handleLLMRequest for a configuration. -/
def usedSelectorIdx (preferredFamily : Option String)
    (avail : Selector → List ModelInfo) : Option Nat :=
  selectIdx avail (llmSelectorChain preferredFamily)

/-- handleLLMRequest (lines 1061-1173): select a backend through the
fallback chain; with no match, reply with a non-success llm:response
carrying code NO_MODEL; with a match, log the model used and invoke it —
a successful invocation yields a success llm:response whose payload is
only the accumulated content, a failed one a non-success llm:response
with code LLM_ERROR. `invoke` abstracts model.sendRequest plus the
accumulation loop; its error value is the caught error message. -/
def handleLLMRequestModel (preferredFamily : Option String)
    (avail : Selector → List ModelInfo) (invoke : ModelInfo → Except String String)
    (requestId : String) (fs : FactoryState) (now : Nat) :
    FactoryState × RawMsg × List Event :=
  match selectFirst avail (llmSelectorChain preferredFamily) with
  | none =>
    let r := createIPCResponse fs now "llm:response" requestId false none
      (some { code := "NO_MODEL",
              message := "No language model available. Available: none" })
    (r.1, r.2, [.logged "No Copilot models available. All models: none", .sent r.2])
  | some (_, models) =>
    let m := models.headD { vendor := "", family := "", mid := "" }
    let lg := Event.logged ("Using model: " ++ m.vendor ++ "/" ++ m.family ++ "/" ++ m.mid)
    match invoke m with
    | .ok content =>
      let r := createIPCResponse fs now "llm:response" requestId true
        (some (.content content)) none
      (r.1, r.2, [lg, .sent r.2])
    | .error emsg =>
      let r := createIPCResponse fs now "llm:response" requestId false none
        (some { code := "LLM_ERROR", message := emsg })
      (r.1, r.2, [lg, .sent r.2])

/-! ### Factory creation sequences (for the id-uniqueness claim) -/

/-- One call into the message factory. -/
inductive FactoryOp where
  | req (now : Nat) (ty : String) (p : Payload)
  | res (now : Nat) (ty requestId : String) (success : Bool)
      (p : Option Payload) (e : Option IPCError)
deriving DecidableEq, Repr

/-- Apply one factory call. -/
def applyOp (fs : FactoryState) : FactoryOp → FactoryState × RawMsg
  | .req now ty p => createIPCRequest fs now ty p
  | .res now ty rid su p e => createIPCResponse fs now ty rid su p e

/-- Messages produced by a sequence of factory calls, threading the
shared counter. -/
def runFactory (fs : FactoryState) : List FactoryOp → List RawMsg
  | [] => []
  | op :: rest =>
    let r := applyOp fs op
    r.2 :: runFactory r.1 rest

/-! ### Helper lemmas -/

theorem lookup_mapDelete_self (m : List (String × PendingEntry)) (k : String) :
    (mapDelete m k).lookup k = none := by
  induction m with
  | nil => rfl
  | cons p t ih =>
    by_cases h : p.1 = k
    · simpa [mapDelete, List.filter_cons, h] using ih
    · have hk : (k == p.1) = false := by
        simp [beq_eq_false_iff_ne]
        exact fun hh => h hh.symm
      simpa [mapDelete, List.filter_cons, h, List.lookup, hk] using ih

theorem mem_setDelete_self (l : List String) (k : String) : k ∉ setDelete l k := by
  simp [setDelete]

/-- Any inbound message whose requestId has no pending entry and no stream
handler is ignored: the registry and handler map are unchanged, nothing is
settled for that id and no chunk is delivered for it. -/
theorem ignored_when_absent (s : OrchState) (v : IPCValue) (rid : String)
    (hreq : requestIdOf v = some rid)
    (hpend : s.pendingRequests.lookup rid = none)
    (hsink : rid ∉ s.streamHandlers) :
    (handleMessage s v).1.pendingRequests = s.pendingRequests ∧
    (handleMessage s v).1.streamHandlers = s.streamHandlers ∧
    settleCount (handleMessage s v).2 rid = 0 ∧
    ∀ m : RawMsg, Event.chunkDelivered rid m ∉ (handleMessage s v).2 := by
  cases v with
  | nonObject => simp [requestIdOf] at hreq
  | obj m =>
    have hrid : m.requestId? = some rid := hreq
    by_cases hval : isIPCRequestB (IPCValue.obj m)
    · by_cases hty1 : m.type? = some "core:ready"
      · simp [handleMessage, hval, hty1, settleCount, isSettleFor]
      · by_cases hty2 : m.type? = some "llm:request"
        · simp [handleMessage, hval, hty1, hty2, settleCount, isSettleFor]
        · by_cases hty3 : m.type? = some "llm:stream"
          · simp [handleMessage, hval, hty1, hty2, hty3, settleCount, isSettleFor]
          · by_cases hty4 : m.type? = some "process:chunk"
            · simp [handleMessage, hval, hty1, hty2, hty3, hty4, hrid, hsink,
                settleCount, isSettleFor]
            · simp [handleMessage, hval, hty1, hty2, hty3, hty4, hrid, hpend,
                settleCount, isSettleFor]
    · simp [handleMessage, hval, settleCount, isSettleFor]

/-- Every pending entry gets its timer cleared and its call rejected by
the exit-handler rejection loop. -/
theorem rejectAllPending_mem :
    ∀ (pending : List (String × PendingEntry)) (sinks : List String) (err : String)
      (rid : String) (e : PendingEntry), (rid, e) ∈ pending →
      Event.timerCancelled e.timer ∈ (rejectAllPending pending sinks err).2 ∧
      Event.rejected rid err ∈ (rejectAllPending pending sinks err).2 := by
  intro pending
  induction pending with
  | nil => simp
  | cons p t ih =>
    intro sinks err rid e hmem
    rcases List.mem_cons.mp hmem with h | h
    · constructor <;> simp [rejectAllPending, ← h]
    · have h2 := ih (if p.2.streaming then setDelete sinks p.1 else sinks) err rid e h
      constructor <;> simp [rejectAllPending, h2.1, h2.2]

/-- A process:chunk message for a registered stream handler is forwarded
synchronously to that handler and leaves the state untouched. -/
theorem chunk_step (s : OrchState) (c : RawMsg) (rid : String)
    (hty : c.type? = some "process:chunk")
    (hfields : isIPCRequestB (.obj c) = true)
    (hrid : c.requestId? = some rid)
    (hsink : rid ∈ s.streamHandlers) :
    handleMessage s (.obj c) = (s, [.chunkDelivered rid c]) := by
  simp [handleMessage, hfields, hty, hrid, hsink]

/-- A chunk-only inbound sequence for a registered handler delivers every
chunk, in order, and leaves the state untouched. -/
theorem run_chunks (s : OrchState) (rid : String) :
    ∀ chunks : List RawMsg,
      (∀ c ∈ chunks, c.type? = some "process:chunk" ∧
        isIPCRequestB (.obj c) = true ∧ c.requestId? = some rid) →
      rid ∈ s.streamHandlers →
      runMessages s (chunks.map IPCValue.obj) =
        (s, chunks.map (fun c => Event.chunkDelivered rid c)) := by
  intro chunks
  induction chunks with
  | nil => intro _ _; rfl
  | cons c t ih =>
    intro h hsink
    obtain ⟨h1, h2, h3⟩ := h c (by simp)
    have hrest := ih (fun x hx => h x (by simp [hx])) hsink
    simp [runMessages, chunk_step s c rid h1 h2 h3 hsink, hrest]

/-- Dispatching a message that reaches the response branch with a pending
entry: the entry is removed, its timer cleared, the streaming sink (when
any) deleted, and the call settled according to the success flag. -/
theorem settle_step (s : OrchState) (m : RawMsg) (rid : String) (e : PendingEntry)
    (hfields : isIPCRequestB (.obj m) = true)
    (hty1 : m.type? ≠ some "core:ready") (hty2 : m.type? ≠ some "llm:request")
    (hty3 : m.type? ≠ some "llm:stream") (hty4 : m.type? ≠ some "process:chunk")
    (hrid : m.requestId? = some rid)
    (hpend : s.pendingRequests.lookup rid = some e) :
    handleMessage s (.obj m) =
      ({ s with
         pendingRequests := mapDelete s.pendingRequests rid
         streamHandlers :=
           if e.streaming then setDelete s.streamHandlers rid else s.streamHandlers },
       [.timerCancelled e.timer,
        if m.success? = some true then .resolved rid m
        else .rejected rid (errMessageOf m)]) := by
  by_cases hs : m.success? = some true <;>
    simp [handleMessage, hfields, hty1, hty2, hty3, hty4, hrid, hpend, hs]

/-- selectFirst returns the matches of the first selector whose match
list is non-empty, every earlier selector matching nothing. -/
theorem selectFirst_spec (avail : Selector → List ModelInfo) :
    ∀ (l : List Selector) (sel : Selector) (ms : List ModelInfo),
      selectFirst avail l = some (sel, ms) →
      ms ≠ [] ∧ avail sel = ms ∧
      ∃ l1 l2, l = l1 ++ sel :: l2 ∧ ∀ x ∈ l1, avail x = [] := by
  intro l
  induction l with
  | nil => intro sel ms h; simp [selectFirst] at h
  | cons a t ih =>
    intro sel ms h
    by_cases ha : avail a = []
    · simp only [selectFirst, if_pos ha] at h
      obtain ⟨h1, h2, l1, l2, hl, hall⟩ := ih sel ms h
      refine ⟨h1, h2, a :: l1, l2, by simp [hl], ?_⟩
      intro x hx
      rcases List.mem_cons.mp hx with rfl | hx2
      · exact ha
      · exact hall x hx2
    · simp only [selectFirst, if_neg ha, Option.some.injEq, Prod.mk.injEq] at h
      exact ⟨h.2 ▸ ha, by rw [← h.1, h.2], [], t, by simp [h.1], by simp⟩

/-- selectFirst finds nothing exactly when every selector in the chain
matches nothing. -/
theorem selectFirst_none_iff (avail : Selector → List ModelInfo) :
    ∀ l : List Selector, selectFirst avail l = none ↔ ∀ sel ∈ l, avail sel = [] := by
  intro l
  induction l with
  | nil => simp [selectFirst]
  | cons a t ih =>
    by_cases ha : avail a = []
    · simp [selectFirst, ha, ih]
    · simp only [selectFirst, if_neg ha]
      exact ⟨fun h => by simp at h, fun h => absurd (h a (by simp)) ha⟩

/-- Each factory call increments the shared counter by one. -/
theorem applyOp_counter (fs : FactoryState) (op : FactoryOp) :
    (applyOp fs op).1.counter = fs.counter + 1 := by
  cases op <;> rfl

/-- Each factory call stamps an id rendered from the fresh counter value. -/
theorem applyOp_id (fs : FactoryState) (op : FactoryOp) :
    ∃ pre now, (pre = "msg_" ∨ pre = "res_") ∧
      (applyOp fs op).2.id? = some (mkMsgId pre (fs.counter + 1) now) := by
  cases op with
  | req now ty p => exact ⟨"msg_", now, Or.inl rfl, rfl⟩
  | res now ty rid su p e => exact ⟨"res_", now, Or.inr rfl, rfl⟩

/-- Every message of a factory run carries an id rendered from a counter
value strictly above the initial counter. -/
theorem runFactory_id_shape :
    ∀ (ops : List FactoryOp) (fs : FactoryState) (m : RawMsg), m ∈ runFactory fs ops →
      ∃ pre c now, (pre = "msg_" ∨ pre = "res_") ∧ fs.counter < c ∧
        m.id? = some (mkMsgId pre c now) := by
  intro ops
  induction ops with
  | nil => simp [runFactory]
  | cons op rest ih =>
    intro fs m hm
    simp only [runFactory, List.mem_cons] at hm
    rcases hm with rfl | hm
    · obtain ⟨pre, now, hpre, hid⟩ := applyOp_id fs op
      exact ⟨pre, fs.counter + 1, now, hpre, Nat.lt_succ_self _, hid⟩
    · obtain ⟨pre, c, now, hpre, hc, hid⟩ := ih (applyOp fs op).1 m hm
      rw [applyOp_counter] at hc
      exact ⟨pre, c, now, hpre, by omega, hid⟩

/-- Ids produced by one factory run are pairwise distinct: each creation
uses a fresh, strictly larger counter value, and the rendered id
determines the counter. -/
theorem runFactory_pairwise_ne :
    ∀ (ops : List FactoryOp) (fs : FactoryState),
      (runFactory fs ops).Pairwise (fun a b => a.id? ≠ b.id?) := by
  intro ops
  induction ops with
  | nil => intro fs; simp [runFactory]
  | cons op rest ih =>
    intro fs
    simp only [runFactory]
    refine List.Pairwise.cons ?_ (ih _)
    intro b hb
    obtain ⟨pre1, now1, hpre1, hid1⟩ := applyOp_id fs op
    obtain ⟨pre2, c2, now2, hpre2, hc2, hid2⟩ := runFactory_id_shape rest (applyOp fs op).1 b hb
    rw [applyOp_counter] at hc2
    rw [hid1, hid2]
    intro h
    exact mkMsgId_ne_of_counter_ne hpre1 hpre2 (by omega) (Option.some.injEq _ _ ▸ h)

/-! ### Claim theorems -/

/-- C5 counterexample: in the state where a process handle exists but the
ready flag is false (the Starting phase), start() takes the early return
and reports success without spawning, yet the orchestrator is not in the
Ready state — so the early return is not confined to the Ready state as
the claim asserts. -/
theorem start_noop_counterexample :
    startGuard { coreProcess := some 0, isReady := false,
                 pendingRequests := [], streamHandlers := [] } = .earlyReturn true ∧
    isRunning { coreProcess := some 0, isReady := false,
                pendingRequests := [], streamHandlers := [] } = false := by
  decide

/-- C5 (amended): start() is a no-op returning success exactly when a
process handle exists, regardless of the ready flag; it proceeds to spawn
exactly when no handle exists. In particular a second start() in the
Ready state returns success without spawning, but the same early return
is also taken while the handle exists without readiness. -/
theorem start_noop_iff_handle_exists (s : OrchState) :
    (startGuard s = .earlyReturn true ↔ s.coreProcess.isSome = true) ∧
    (startGuard s = .spawn ↔ s.coreProcess = none) := by
  by_cases h : s.coreProcess.isSome
  · constructor
    · simp [startGuard, h]
    · simp only [startGuard, if_pos h]
      constructor
      · intro hh; cases hh
      · intro hh; rw [hh] at h; simp at h
  · have hn : s.coreProcess = none := by
      cases hcp : s.coreProcess
      · rfl
      · rw [hcp] at h; simp at h
    constructor
    · simp only [startGuard, if_neg h]
      constructor
      · intro hh; cases hh
      · intro hh; exact absurd hh h
    · simp [startGuard, h, hn]

/-- C6 counterexample: when the process never exits before the force-kill
deadline, stop() sends SIGKILL at time 5000 and resolves at that same
moment without having observed the process-exit event — refuting the
claim that the returned future settles only upon observing process-exit
in every path. -/
theorem stop_forcekill_counterexample :
    (stopCall true none).map StopTrace.resolvedOnExit = some false ∧
    (stopCall true none).map StopTrace.sigkillAt = some (some 5000) ∧
    (stopCall true none).map StopTrace.resolveAt = some 5000 := by
  decide

/-- C6 (amended): stop(), when a process exists, sends the shutdown
request at once and SIGTERM at 1000; if the exit event fires strictly
before the 5000 force-kill deadline, stop() resolves at that moment upon
the exit event and no SIGKILL is sent; otherwise SIGKILL is issued at the
deadline and stop() resolves immediately at the deadline, without waiting
for the exit event. -/
theorem stop_resolution (exitAt : Option Nat) :
    (stopRun exitAt).shutdownSentAt = 0 ∧
    (stopRun exitAt).sigtermAt = some 1000 ∧
    (∀ t, exitAt = some t → t < 5000 →
      stopRun exitAt = { resolveAt := t, resolvedOnExit := true, sigkillAt := none,
                         sigtermAt := some 1000, shutdownSentAt := 0 }) ∧
    (∀ t, exitAt = some t → ¬ t < 5000 →
      stopRun exitAt = { resolveAt := 5000, resolvedOnExit := false,
                         sigkillAt := some 5000, sigtermAt := some 1000,
                         shutdownSentAt := 0 }) ∧
    (exitAt = none →
      stopRun exitAt = { resolveAt := 5000, resolvedOnExit := false,
                         sigkillAt := some 5000, sigtermAt := some 1000,
                         shutdownSentAt := 0 }) := by
  match exitAt with
  | none => refine ⟨rfl, rfl, ?_, ?_, ?_⟩ <;> intro <;> simp_all [stopRun]
  | some t =>
    by_cases h : t < 5000 <;>
      refine ⟨by simp [stopRun, h], by simp [stopRun, h], ?_, ?_, ?_⟩ <;>
        intros <;> simp_all [stopRun]

/-- C6 witness: concrete instances of both stop() paths obtained from the
resolution theorem. -/
theorem stop_resolution_witness :
    stopRun (some 3) = { resolveAt := 3, resolvedOnExit := true, sigkillAt := none,
                         sigtermAt := some 1000, shutdownSentAt := 0 } ∧
    stopRun (some 9000) = { resolveAt := 5000, resolvedOnExit := false,
                            sigkillAt := some 5000, sigtermAt := some 1000,
                            shutdownSentAt := 0 } :=
  ⟨(stop_resolution (some 3)).2.2.1 3 rfl (by decide),
   (stop_resolution (some 9000)).2.2.2.1 9000 rfl (by decide)⟩

/-- C8 counterexample: two distinct llm:chunk messages built in the same
time unit carry the same id — chunk ids are time-only, with no counter
component, so host-produced messages are not globally unique as claimed. -/
theorem chunk_id_collision_counterexample :
    mkLLMChunkMsg 7 "req-1" "a" false ≠ mkLLMChunkMsg 7 "req-1" "b" false ∧
    (mkLLMChunkMsg 7 "req-1" "a" false).id? = (mkLLMChunkMsg 7 "req-1" "b" false).id? := by
  constructor
  · intro h
    have := congrArg RawMsg.payload? h
    simp [mkLLMChunkMsg] at this
  · rfl

/-- C8 (amended): messages created through the factory (requests and
responses) do combine the strictly monotonic shared counter with the
time component, so any run of factory creations yields pairwise distinct
ids; stream-chunk messages, however, derive their id from the time
component alone, and the id of an llm:chunk message is independent of its
requestId, content and done flag, so chunks emitted within one time unit
collide. -/
theorem message_id_uniqueness (fs : FactoryState) (ops : List FactoryOp)
    (now : Nat) (r1 c1 : String) (d1 : Bool) (r2 c2 : String) (d2 : Bool) :
    (runFactory fs ops).Pairwise (fun a b => a.id? ≠ b.id?) ∧
    (mkLLMChunkMsg now r1 c1 d1).id? = (mkLLMChunkMsg now r2 c2 d2).id? :=
  ⟨runFactory_pairwise_ne ops fs, rfl⟩

theorem runMessages_append (s : OrchState) :
    ∀ l1 l2 : List IPCValue,
      runMessages s (l1 ++ l2) =
        ((runMessages (runMessages s l1).1 l2).1,
         (runMessages s l1).2 ++ (runMessages (runMessages s l1).1 l2).2) := by
  intro l1
  induction l1 generalizing s with
  | nil => intro l2; simp [runMessages]
  | cons v t ih =>
    intro l2
    simp [runMessages, ih, List.append_assoc]

/-- C1: dispatching a Response that matches a pending entry removes the
entry (cancelling its timer) and settles the call exactly once; any
message carrying a requestId with no pending entry and no stream handler
— in particular any later Response for the same id — is ignored: the
registry is unchanged and no further settlement or chunk delivery occurs
for that id. -/
theorem response_at_most_once_settlement
    (s : OrchState) (m : RawMsg) (rid : String) (e : PendingEntry)
    (hfields : isIPCRequestB (.obj m) = true)
    (hty1 : m.type? ≠ some "core:ready") (hty2 : m.type? ≠ some "llm:request")
    (hty3 : m.type? ≠ some "llm:stream") (hty4 : m.type? ≠ some "process:chunk")
    (hrid : m.requestId? = some rid)
    (hpend : s.pendingRequests.lookup rid = some e)
    (hinv : rid ∈ s.streamHandlers → e.streaming = true) :
    (handleMessage s (.obj m)).1.pendingRequests.lookup rid = none ∧
    rid ∉ (handleMessage s (.obj m)).1.streamHandlers ∧
    Event.timerCancelled e.timer ∈ (handleMessage s (.obj m)).2 ∧
    settleCount (handleMessage s (.obj m)).2 rid = 1 ∧
    (∀ (s2 : OrchState) (v : IPCValue),
      s2.pendingRequests.lookup rid = none → rid ∉ s2.streamHandlers →
      requestIdOf v = some rid →
      (handleMessage s2 v).1.pendingRequests = s2.pendingRequests ∧
      settleCount (handleMessage s2 v).2 rid = 0 ∧
      ∀ mm : RawMsg, Event.chunkDelivered rid mm ∉ (handleMessage s2 v).2) := by
  rw [settle_step s m rid e hfields hty1 hty2 hty3 hty4 hrid hpend]
  refine ⟨lookup_mapDelete_self s.pendingRequests rid, ?_, by simp, ?_, ?_⟩
  · by_cases hstr : e.streaming
    · simp only [hstr, if_pos]
      exact mem_setDelete_self s.streamHandlers rid
    · simp only [hstr, if_neg, Bool.false_eq_true, not_false_eq_true, ite_false]
      intro hmem
      exact hstr (hinv hmem)
  · by_cases hs : m.success? = some true <;> simp [hs, settleCount, isSettleFor]
  · intro s2 v h1 h2 h3
    obtain ⟨g1, g2, g3, g4⟩ := ignored_when_absent s2 v rid h3 h1 h2
    exact ⟨g1, g3, g4⟩

/-- C1 witness: a concrete success Response settles its pending call
once; a second copy of the same Response is then ignored. -/
theorem response_at_most_once_settlement_witness :
    settleCount (handleMessage
      { coreProcess := some 1, isReady := true,
        pendingRequests := [("r1", ⟨false, 11⟩)], streamHandlers := [] }
      (.obj { type? := some "agents:list:response", id? := some "res_1_1",
              timestamp? := some 1, payload? := some (.tag "x"),
              requestId? := some "r1", success? := some true, error? := none })).2 "r1" = 1 ∧
    settleCount (handleMessage
      { coreProcess := some 1, isReady := true,
        pendingRequests := [], streamHandlers := [] }
      (.obj { type? := some "agents:list:response", id? := some "res_1_1",
              timestamp? := some 1, payload? := some (.tag "x"),
              requestId? := some "r1", success? := some true, error? := none })).2 "r1" = 0 := by
  have h := response_at_most_once_settlement
    { coreProcess := some 1, isReady := true,
      pendingRequests := [("r1", ⟨false, 11⟩)], streamHandlers := [] }
    { type? := some "agents:list:response", id? := some "res_1_1",
      timestamp? := some 1, payload? := some (.tag "x"),
      requestId? := some "r1", success? := some true, error? := none }
    "r1" ⟨false, 11⟩ (by decide) (by decide) (by decide) (by decide) (by decide)
    rfl (by decide) (by decide)
  refine ⟨h.2.2.2.1, ?_⟩
  exact (h.2.2.2.2
    { coreProcess := some 1, isReady := true,
      pendingRequests := [], streamHandlers := [] }
    (.obj
      { type? := some "agents:list:response", id? := some "res_1_1",
        timestamp? := some 1, payload? := some (.tag "x"),
        requestId? := some "r1", success? := some true, error? := none })
    rfl (by decide) rfl).2.1

/-- C2: the exit handler — the single handler run on the process-exit
event, whichever of stop() or a crash triggered it — rejects every
pending call with the process-exited error, cancels each pending timer,
clears the registry, resets the ready flag and drops the process handle,
and fires the exit emitter. -/
theorem exit_rejects_all_and_clears (s : OrchState) (code : Option Int) :
    (onExit s code).1.pendingRequests = [] ∧
    (onExit s code).1.coreProcess = none ∧
    (onExit s code).1.isReady = false ∧
    Event.firedExit code ∈ (onExit s code).2 ∧
    (∀ (rid : String) (e : PendingEntry), (rid, e) ∈ s.pendingRequests →
      Event.timerCancelled e.timer ∈ (onExit s code).2 ∧
      Event.rejected rid "Core process exited" ∈ (onExit s code).2) := by
  refine ⟨rfl, rfl, rfl, by simp [onExit], ?_⟩
  intro rid e hmem
  have h := rejectAllPending_mem s.pendingRequests s.streamHandlers
    "Core process exited" rid e hmem
  constructor <;> simp [onExit, h.1, h.2]

/-- C2 witness: killing the worker with three outstanding calls rejects
all three and empties the registry. -/
theorem exit_rejects_all_and_clears_witness :
    (onExit { coreProcess := some 1, isReady := true,
              pendingRequests := [("a", ⟨false, 1⟩), ("b", ⟨true, 2⟩), ("c", ⟨false, 3⟩)],
              streamHandlers := ["b"] } (some 137)).1.pendingRequests = [] ∧
    Event.rejected "a" "Core process exited" ∈
      (onExit { coreProcess := some 1, isReady := true,
                pendingRequests := [("a", ⟨false, 1⟩), ("b", ⟨true, 2⟩), ("c", ⟨false, 3⟩)],
                streamHandlers := ["b"] } (some 137)).2 ∧
    Event.rejected "b" "Core process exited" ∈
      (onExit { coreProcess := some 1, isReady := true,
                pendingRequests := [("a", ⟨false, 1⟩), ("b", ⟨true, 2⟩), ("c", ⟨false, 3⟩)],
                streamHandlers := ["b"] } (some 137)).2 ∧
    Event.rejected "c" "Core process exited" ∈
      (onExit { coreProcess := some 1, isReady := true,
                pendingRequests := [("a", ⟨false, 1⟩), ("b", ⟨true, 2⟩), ("c", ⟨false, 3⟩)],
                streamHandlers := ["b"] } (some 137)).2 := by
  have h := exit_rejects_all_and_clears
    { coreProcess := some 1, isReady := true,
      pendingRequests := [("a", ⟨false, 1⟩), ("b", ⟨true, 2⟩), ("c", ⟨false, 3⟩)],
      streamHandlers := ["b"] } (some 137)
  exact ⟨h.1, (h.2.2.2.2 "a" ⟨false, 1⟩ (by simp)).2,
    (h.2.2.2.2 "b" ⟨true, 2⟩ (by simp)).2, (h.2.2.2.2 "c" ⟨false, 3⟩ (by simp)).2⟩

/-- C3: when the sendRequest timeout timer fires, the pending entry is
removed and the call rejected with the timeout error (exactly one
settlement); a Response arriving afterwards for that id finds no entry,
changes nothing and settles nothing. -/
theorem timeout_rejects_and_removes
    (s : OrchState) (rid ty : String) (tms : Nat) (e : PendingEntry)
    (_hpend : s.pendingRequests.lookup rid = some e)
    (hsink : rid ∉ s.streamHandlers) :
    (sendRequestTimeoutCb s rid ty tms).1.pendingRequests.lookup rid = none ∧
    (sendRequestTimeoutCb s rid ty tms).2 =
      [.rejected rid ("Request " ++ ty ++ " timed out after " ++ natStr tms ++ "ms")] ∧
    settleCount (sendRequestTimeoutCb s rid ty tms).2 rid = 1 ∧
    (∀ v : IPCValue, requestIdOf v = some rid →
      (handleMessage (sendRequestTimeoutCb s rid ty tms).1 v).1.pendingRequests =
        (sendRequestTimeoutCb s rid ty tms).1.pendingRequests ∧
      settleCount (handleMessage (sendRequestTimeoutCb s rid ty tms).1 v).2 rid = 0) := by
  have hp : (sendRequestTimeoutCb s rid ty tms).1.pendingRequests.lookup rid = none :=
    lookup_mapDelete_self s.pendingRequests rid
  refine ⟨hp, rfl, by simp [sendRequestTimeoutCb, settleCount, isSettleFor], ?_⟩
  intro v hv
  have hs : rid ∉ (sendRequestTimeoutCb s rid ty tms).1.streamHandlers := hsink
  obtain ⟨g1, g2, g3, _⟩ := ignored_when_absent (sendRequestTimeoutCb s rid ty tms).1 v rid hv hp hs
  exact ⟨g1, g3⟩

/-- C3 witness: a concrete timed-out call is rejected with the timeout
error and a late success Response for the same id is then dropped. -/
theorem timeout_rejects_and_removes_witness :
    (sendRequestTimeoutCb
      { coreProcess := some 1, isReady := true,
        pendingRequests := [("r2", ⟨false, 21⟩)], streamHandlers := [] }
      "r2" "agents:list" 50).2 =
      [.rejected "r2" ("Request " ++ "agents:list" ++ " timed out after " ++ natStr 50 ++ "ms")] ∧
    settleCount (handleMessage
      (sendRequestTimeoutCb
        { coreProcess := some 1, isReady := true,
          pendingRequests := [("r2", ⟨false, 21⟩)], streamHandlers := [] }
        "r2" "agents:list" 50).1
      (.obj { type? := some "agents:list:response", id? := some "res_9_9",
              timestamp? := some 9, payload? := some (.tag "late"),
              requestId? := some "r2", success? := some true, error? := none })).2 "r2" = 0 := by
  have h := timeout_rejects_and_removes
    { coreProcess := some 1, isReady := true,
      pendingRequests := [("r2", ⟨false, 21⟩)], streamHandlers := [] }
    "r2" "agents:list" 50 ⟨false, 21⟩ (by decide) (by decide)
  exact ⟨h.2.1,
    (h.2.2.2
      (.obj
        { type? := some "agents:list:response", id? := some "res_9_9",
          timestamp? := some 9, payload? := some (.tag "late"),
          requestId? := some "r2", success? := some true, error? := none })
      rfl).2⟩

/-- C4: for a streaming call with a registered sink, every process:chunk
message addressed to its id is forwarded to the sink as it is dispatched,
in arrival order, leaving the pending entry and the sink in place; the
events of the full trace place every chunk delivery strictly before the
single settlement produced by the terminal Response; processing the
terminal Response removes the sink whether its success flag is true or
false; and the streaming timeout callback removes the sink as well. -/
theorem streaming_chunk_order_and_sink
    (s : OrchState) (rid : String) (e : PendingEntry) (chunks : List RawMsg)
    (m : RawMsg) (tms : Nat)
    (hstr : e.streaming = true)
    (hpend : s.pendingRequests.lookup rid = some e)
    (hsink : rid ∈ s.streamHandlers)
    (hch : ∀ c ∈ chunks, c.type? = some "process:chunk" ∧
      isIPCRequestB (.obj c) = true ∧ c.requestId? = some rid)
    (hfields : isIPCRequestB (.obj m) = true)
    (hty1 : m.type? ≠ some "core:ready") (hty2 : m.type? ≠ some "llm:request")
    (hty3 : m.type? ≠ some "llm:stream") (hty4 : m.type? ≠ some "process:chunk")
    (hrid : m.requestId? = some rid) :
    runMessages s (chunks.map IPCValue.obj) =
      (s, chunks.map (fun c => Event.chunkDelivered rid c)) ∧
    runMessages s (chunks.map IPCValue.obj ++ [IPCValue.obj m]) =
      ({ s with
         pendingRequests := mapDelete s.pendingRequests rid
         streamHandlers := setDelete s.streamHandlers rid },
       chunks.map (fun c => Event.chunkDelivered rid c) ++
         [.timerCancelled e.timer,
          if m.success? = some true then .resolved rid m
          else .rejected rid (errMessageOf m)]) ∧
    rid ∉ setDelete s.streamHandlers rid ∧
    rid ∉ (sendStreamingTimeoutCb s rid tms).1.streamHandlers := by
  have hc := run_chunks s rid chunks hch hsink
  have hm := settle_step s m rid e hfields hty1 hty2 hty3 hty4 hrid hpend
  refine ⟨hc, ?_, mem_setDelete_self s.streamHandlers rid,
    mem_setDelete_self s.streamHandlers rid⟩
  rw [runMessages_append, hc]
  simp only [runMessages, hm, hstr, if_pos, List.append_nil]

/-- C4 witness: chunks a, b, c for a streaming call are delivered in
order before the success Response settles the call and removes the sink. -/
theorem streaming_chunk_order_and_sink_witness :
    runMessages
      { coreProcess := some 1, isReady := true,
        pendingRequests := [("r3", ⟨true, 31⟩)], streamHandlers := ["r3"] }
      ([{ type? := some "process:chunk", id? := some "c1", timestamp? := some 1,
          payload? := some (.chunk "a" false), requestId? := some "r3",
          success? := none, error? := none },
        { type? := some "process:chunk", id? := some "c2", timestamp? := some 2,
          payload? := some (.chunk "b" false), requestId? := some "r3",
          success? := none, error? := none },
        { type? := some "process:chunk", id? := some "c3", timestamp? := some 3,
          payload? := some (.chunk "c" false), requestId? := some "r3",
          success? := none, error? := none }].map IPCValue.obj ++
       [IPCValue.obj
         { type? := some "process:response", id? := some "res_5_5",
           timestamp? := some 5, payload? := some (.content "done"),
           requestId? := some "r3", success? := some true, error? := none }]) =
      ({ coreProcess := some 1, isReady := true, pendingRequests := [],
         streamHandlers := [] },
       [Event.chunkDelivered "r3"
          { type? := some "process:chunk", id? := some "c1", timestamp? := some 1,
            payload? := some (.chunk "a" false), requestId? := some "r3",
            success? := none, error? := none },
        Event.chunkDelivered "r3"
          { type? := some "process:chunk", id? := some "c2", timestamp? := some 2,
            payload? := some (.chunk "b" false), requestId? := some "r3",
            success? := none, error? := none },
        Event.chunkDelivered "r3"
          { type? := some "process:chunk", id? := some "c3", timestamp? := some 3,
            payload? := some (.chunk "c" false), requestId? := some "r3",
            success? := none, error? := none },
        Event.timerCancelled 31,
        Event.resolved "r3"
          { type? := some "process:response", id? := some "res_5_5",
            timestamp? := some 5, payload? := some (.content "done"),
            requestId? := some "r3", success? := some true, error? := none }]) := by
  have h := streaming_chunk_order_and_sink
    { coreProcess := some 1, isReady := true,
      pendingRequests := [("r3", ⟨true, 31⟩)], streamHandlers := ["r3"] }
    "r3" ⟨true, 31⟩
    [{ type? := some "process:chunk", id? := some "c1", timestamp? := some 1,
       payload? := some (.chunk "a" false), requestId? := some "r3",
       success? := none, error? := none },
     { type? := some "process:chunk", id? := some "c2", timestamp? := some 2,
       payload? := some (.chunk "b" false), requestId? := some "r3",
       success? := none, error? := none },
     { type? := some "process:chunk", id? := some "c3", timestamp? := some 3,
       payload? := some (.chunk "c" false), requestId? := some "r3",
       success? := none, error? := none }]
    { type? := some "process:response", id? := some "res_5_5",
      timestamp? := some 5, payload? := some (.content "done"),
      requestId? := some "r3", success? := some true, error? := none }
    60000 rfl (by decide) (by decide) (by decide) (by decide) (by decide)
    (by decide) (by decide) (by decide) (by decide)
  rw [h.2.1]
  decide

/-- C9: calling sendRequest or sendStreamingRequest while the
orchestrator is not running throws the "Core is not running" error, with
the state returned untouched and no event produced — no registry entry,
no stream handler, no transmission; and not-running means exactly that
the process handle is absent or the ready flag is false. -/
theorem not_running_guard
    (s : OrchState) (fs : FactoryState) (now : Nat) (ty : String) (p : Payload)
    (tid : Nat) (h : isRunning s = false) :
    sendRequestImpl s fs now ty p tid = (some "Core is not running", s, fs, []) ∧
    sendStreamingRequestImpl s fs now ty p tid = (some "Core is not running", s, fs, []) ∧
    (∀ s2 : OrchState, isRunning s2 = false ↔ (s2.coreProcess = none ∨ s2.isReady = false)) := by
  refine ⟨by simp [sendRequestImpl, h], by simp [sendStreamingRequestImpl, h], ?_⟩
  intro s2
  cases hcp : s2.coreProcess <;> cases hr : s2.isReady <;> simp [isRunning, hcp, hr]

/-- C9 witness: with a process handle present but the ready flag false,
both send paths throw and leave the state unchanged. -/
theorem not_running_guard_witness :
    sendRequestImpl
      { coreProcess := some 1, isReady := false,
        pendingRequests := [], streamHandlers := [] }
      ⟨0⟩ 4 "agents:list" (.tag "q") 77 =
      (some "Core is not running",
       { coreProcess := some 1, isReady := false,
         pendingRequests := [], streamHandlers := [] }, ⟨0⟩, []) ∧
    sendStreamingRequestImpl
      { coreProcess := some 1, isReady := false,
        pendingRequests := [], streamHandlers := [] }
      ⟨0⟩ 4 "process:request" (.tag "q") 78 =
      (some "Core is not running",
       { coreProcess := some 1, isReady := false,
         pendingRequests := [], streamHandlers := [] }, ⟨0⟩, []) := by
  have h1 := not_running_guard
    { coreProcess := some 1, isReady := false,
      pendingRequests := [], streamHandlers := [] }
    ⟨0⟩ 4 "agents:list" (.tag "q") 77 (by decide)
  have h2 := not_running_guard
    { coreProcess := some 1, isReady := false,
      pendingRequests := [], streamHandlers := [] }
    ⟨0⟩ 4 "process:request" (.tag "q") 78 (by decide)
  exact ⟨h1.1, h2.2.1⟩

/-- C10: an inbound value that fails the envelope guard — it is not an
object, or any of type, id, timestamp, payload is absent — is logged and
dropped: the state (registry included) is returned unchanged and the only
event is the log line; and the guard accepts an object exactly when all
four fields are present. -/
theorem invalid_envelope_dropped (s : OrchState) (v : IPCValue)
    (h : isIPCRequestB v = false) :
    handleMessage s v = (s, [.logged "Invalid message received"]) ∧
    (∀ m : RawMsg, isIPCRequestB (.obj m) =
      (m.type?.isSome && m.id?.isSome && m.timestamp?.isSome && m.payload?.isSome)) := by
  refine ⟨?_, fun m => rfl⟩
  cases v with
  | nonObject => rfl
  | obj m => simp [handleMessage, h]

/-- C10 witness: a Response whose payload key is absent — all other
envelope fields present, carrying the requestId of a live pending call —
is dropped without settling or removing that call. -/
theorem invalid_envelope_dropped_witness :
    handleMessage
      { coreProcess := some 1, isReady := true,
        pendingRequests := [("r4", ⟨false, 41⟩)], streamHandlers := [] }
      (.obj
        { type? := some "agents:list:response", id? := some "res_2_2",
          timestamp? := some 2, payload? := none,
          requestId? := some "r4", success? := some true, error? := none }) =
      ({ coreProcess := some 1, isReady := true,
         pendingRequests := [("r4", ⟨false, 41⟩)], streamHandlers := [] },
       [.logged "Invalid message received"]) :=
  (invalid_envelope_dropped
    { coreProcess := some 1, isReady := true,
      pendingRequests := [("r4", ⟨false, 41⟩)], streamHandlers := [] }
    (.obj
      { type? := some "agents:list:response", id? := some "res_2_2",
        timestamp? := some 2, payload? := none,
        requestId? := some "r4", success? := some true, error? := none })
    (by decide)).1

/-- C7 counterexample: two configurations in which different selectors of
the fallback chain are used — the preferred-family selector (index 0) in
one, the first hard-coded fallback family (index 1) in the other — yield
byte-identical llm:response messages (and identical proxy output
altogether), so the success Response does not record which selector was
actually used, refuting that part of the claim. -/
theorem llm_selector_not_recorded_counterexample :
    usedSelectorIdx (some "fam-a")
      (fun sel => if sel = { vendor := some "copilot", family := some "fam-a" }
        then [{ vendor := "copilot", family := "gpt-4o", mid := "m1" }] else []) = some 0 ∧
    usedSelectorIdx (some "fam-a")
      (fun sel => if sel = { vendor := some "copilot", family := some "gpt-4o" }
        then [{ vendor := "copilot", family := "gpt-4o", mid := "m1" }] else []) = some 1 ∧
    handleLLMRequestModel (some "fam-a")
      (fun sel => if sel = { vendor := some "copilot", family := some "fam-a" }
        then [{ vendor := "copilot", family := "gpt-4o", mid := "m1" }] else [])
      (fun _ => .ok "hello") "req-7" ⟨0⟩ 5 =
    handleLLMRequestModel (some "fam-a")
      (fun sel => if sel = { vendor := some "copilot", family := some "gpt-4o" }
        then [{ vendor := "copilot", family := "gpt-4o", mid := "m1" }] else [])
      (fun _ => .ok "hello") "req-7" ⟨0⟩ 5 := by
  refine ⟨rfl, rfl, ?_⟩
  rfl

/-- C7 (amended): the proxy tries the ordered selector chain — preferred
family when configured, the five hard-coded copilot families, any copilot
model, any model — and uses the first selector matching a backend, every
earlier selector having matched none; with a backend found, a successful
invocation is answered by a success Response whose payload is only the
accumulated content (the selector used is recorded in the host log, not
in the Response), and a failed invocation by a non-success Response with
code LLM_ERROR; with no backend under any selector, the reply is a
non-success Response with code NO_MODEL. -/
theorem llm_fallback_chain
    (pf : Option String) (avail : Selector → List ModelInfo)
    (invoke : ModelInfo → Except String String) (reqId : String)
    (fs : FactoryState) (now : Nat) :
    ((∀ sel ∈ llmSelectorChain pf, avail sel = []) →
      (handleLLMRequestModel pf avail invoke reqId fs now).2.1.success? = some false ∧
      ((handleLLMRequestModel pf avail invoke reqId fs now).2.1.error?.map IPCError.code) =
        some "NO_MODEL") ∧
    (∀ sel ms, selectFirst avail (llmSelectorChain pf) = some (sel, ms) →
      (ms ≠ [] ∧ avail sel = ms ∧
        ∃ l1 l2, llmSelectorChain pf = l1 ++ sel :: l2 ∧ ∀ x ∈ l1, avail x = []) ∧
      (∀ content, invoke (ms.headD { vendor := "", family := "", mid := "" }) = .ok content →
        (handleLLMRequestModel pf avail invoke reqId fs now).2.1.success? = some true ∧
        (handleLLMRequestModel pf avail invoke reqId fs now).2.1.payload? =
          some (.content content) ∧
        (handleLLMRequestModel pf avail invoke reqId fs now).2.1.error? = none ∧
        Event.logged ("Using model: " ++
            (ms.headD { vendor := "", family := "", mid := "" }).vendor ++ "/" ++
            (ms.headD { vendor := "", family := "", mid := "" }).family ++ "/" ++
            (ms.headD { vendor := "", family := "", mid := "" }).mid) ∈
          (handleLLMRequestModel pf avail invoke reqId fs now).2.2) ∧
      (∀ emsg, invoke (ms.headD { vendor := "", family := "", mid := "" }) = .error emsg →
        (handleLLMRequestModel pf avail invoke reqId fs now).2.1.success? = some false ∧
        ((handleLLMRequestModel pf avail invoke reqId fs now).2.1.error?.map IPCError.code) =
          some "LLM_ERROR")) := by
  constructor
  · intro hall
    have hnone : selectFirst avail (llmSelectorChain pf) = none :=
      (selectFirst_none_iff avail (llmSelectorChain pf)).mpr hall
    simp [handleLLMRequestModel, hnone, createIPCResponse]
  · intro sel ms hsel
    refine ⟨selectFirst_spec avail (llmSelectorChain pf) sel ms hsel, ?_, ?_⟩
    · intro content hinv
      simp only [handleLLMRequestModel, hsel]
      rw [hinv]
      simp [createIPCResponse]
    · intro emsg hinv
      simp only [handleLLMRequestModel, hsel]
      rw [hinv]
      simp [createIPCResponse]

/-- C7 witness: with no preferred family and only the family-less copilot
selector matching a backend, the five family fallbacks are skipped, the
sixth selector is used and the invocation result comes back as a success
Response carrying only the content. -/
theorem llm_fallback_chain_witness :
    (handleLLMRequestModel none
      (fun sel => if sel = { vendor := some "copilot", family := none }
        then [{ vendor := "copilot", family := "f", mid := "m2" }] else [])
      (fun _ => .ok "okey") "req-8" ⟨0⟩ 1).2.1.success? = some true ∧
    (handleLLMRequestModel none
      (fun sel => if sel = { vendor := some "copilot", family := none }
        then [{ vendor := "copilot", family := "f", mid := "m2" }] else [])
      (fun _ => .ok "okey") "req-8" ⟨0⟩ 1).2.1.payload? = some (.content "okey") := by
  have h := (llm_fallback_chain none
    (fun sel => if sel = { vendor := some "copilot", family := none }
      then [{ vendor := "copilot", family := "f", mid := "m2" }] else [])
    (fun _ => .ok "okey") "req-8" ⟨0⟩ 1).2
    { vendor := some "copilot", family := none }
    [{ vendor := "copilot", family := "f", mid := "m2" }]
    (by decide)
  exact ⟨(h.2.1 "okey" rfl).1, (h.2.1 "okey" rfl).2.1⟩

end XORNG
